import Mathlib

/-
Verification development for the multi-subject sensor-logger ingestion
pipeline (`multiple_sensorloggers_postgresql.py`).

The Python program is shallowly embedded: JSON request bodies become the
inductive `JValue`; the module-level mutable globals (`subject_configs`,
`CURRENT_DEVICE_SUBJECT`, `last_values`, `sensor_insert_queue`, and the set
of created storage tables) become the record `ServerState`; Python floats
and `datetime` instants become exact rationals measured in seconds since
the epoch; storage and queue side effects are reified in an `Effect`
trace.  Each Flask handler becomes a pure function from a state and a
request body to a new state, an effect trace and a `Response`.
-/

namespace SensorPipeline

/-- JSON-like values, modelling the Python objects the handlers receive. -/
inductive JValue where
  | null
  | bool (b : Bool)
  | num (q : ℚ)
  | str (s : String)
  | arr (xs : List JValue)
  | obj (fields : List (String × JValue))

/-- Python truthiness (`bool(v)`) for the values above: `None`, `False`,
`0`, `""`, `[]` and `\x7b\x7d` are falsy, everything else is truthy. -/
def JValue.truthy : JValue → Bool
  | .null => false
  | .bool b => b
  | .num q => q != 0
  | .str s => s != ""
  | .arr xs => !xs.isEmpty
  | .obj fs => !fs.isEmpty

/-- Whether a value is not the JSON/Python `None`. -/
def JValue.isNotNull : JValue → Bool
  | .null => false
  | _ => true

/-- First-match association-list lookup, modelling Python `dict` lookup
(keys in a parsed JSON object are unique). -/
def lookupAssoc {α β : Type} [DecidableEq α] : List (α × β) → α → Option β
  | [], _ => none
  | (a, b) :: rest, k => if a = k then some b else lookupAssoc rest k

/-- In-place update or append, modelling `d[k] = v` on an insertion-ordered
Python `dict`. -/
def updateAssoc {α β : Type} [DecidableEq α] : List (α × β) → α → β → List (α × β)
  | [], k, v => [(k, v)]
  | (a, b) :: rest, k, v =>
    if a = k then (k, v) :: rest else (a, b) :: updateAssoc rest k v

/-- Python `d.get(k, default)`. -/
def pyGetD (fs : List (String × JValue)) (k : String) (d : JValue) : JValue :=
  match lookupAssoc fs k with
  | some v => v
  | none => d

/-- Python `d.get(k)`: absent keys yield `None`. -/
def pyGet (fs : List (String × JValue)) (k : String) : JValue :=
  pyGetD fs k .null

/-- Python `k in d` (key presence, independent of the stored value). -/
def hasKey (fs : List (String × JValue)) (k : String) : Bool :=
  (lookupAssoc fs k).isSome

/-- Python `s.lower()` for the ASCII strings the pipeline handles
(device ids and sensor names). -/
def pyLower (s : String) : String :=
  String.mk (s.data.map Char.toLower)

/-- Python `a or b`: the left operand when truthy, otherwise the right. -/
def pyOr (a b : JValue) : JValue :=
  if a.truthy then a else b

/-- Decimal parser modelling the fragment of Python `float(s)` the intake
can meet: optional sign, integer digits, optional fractional digits. -/
def parseDecimal (s : String) : Option ℚ :=
  let stripSign : List Char → Bool × List Char := fun cs =>
    match cs with
    | '-' :: r => (true, r)
    | '+' :: r => (false, r)
    | r => (false, r)
  let digitsVal : List Char → ℚ := fun ds =>
    ds.foldl (fun acc c => acc * 10 + ((c.toNat - 48 : ℕ) : ℚ)) 0
  let p := stripSign s.toList
  let intPart := p.2.takeWhile Char.isDigit
  let rest := p.2.dropWhile Char.isDigit
  let signed : ℚ → ℚ := fun q => if p.1 then -q else q
  match rest with
  | [] =>
    if intPart.isEmpty then none else some (signed (digitsVal intPart))
  | '.' :: fracRest =>
    let fracPart := fracRest.takeWhile Char.isDigit
    if !(fracRest.dropWhile Char.isDigit).isEmpty then none
    else if intPart.isEmpty && fracPart.isEmpty then none
    else some (signed (digitsVal intPart + digitsVal fracPart / (10 : ℚ) ^ fracPart.length))
  | _ => none

/-- Magnitude-based unit inference of `extract_ts`: a raw numeric timestamp
is nanoseconds when above 1e15, milliseconds when above 1e12, else seconds. -/
def inferSec (q : ℚ) : ℚ :=
  if q > 1000000000000000 then q / 1000000000
  else if q > 1000000000000 then q / 1000
  else q

/-- Chain `reading.get("timestamp") or reading.get("time") or reading.get("ts")`. -/
def tsChain (fs : List (String × JValue)) : JValue :=
  pyOr (pyGet fs "timestamp") (pyOr (pyGet fs "time") (pyGet fs "ts"))

/-- Model of `extract_ts(reading)`: pick the first truthy of the three
timestamp fields, convert strings with `float`, infer the unit by
magnitude, and return the UTC instant as rational seconds.  A missing
timestamp raises (`KeyError`), a non-numeric value raises (`TypeError`),
and a non-dict reading raises when `.get` is accessed. -/
def extract_ts (reading : JValue) : Except String ℚ :=
  match reading with
  | .obj fs =>
    match tsChain fs with
    | .null => .error "No timestamp"
    | .num q => .ok (inferSec q)
    | .bool b => .ok (inferSec (if b then 1 else 0))
    | .str s =>
      match parseDecimal s with
      | some q => .ok (inferSec q)
      | none => .error "could not convert string to float"
    | .arr _ => .error "TypeError: comparison with float"
    | .obj _ => .error "TypeError: comparison with float"
  | _ => .error "AttributeError: get"

/-- Model of `vec3_xyz_or_pry(v)`: `None` passes through; a dict whose keys
include one of the three coordinate conventions becomes the ordered
3-vector for that convention; anything else passes through unchanged. -/
def vec3_xyz_or_pry (v : JValue) : JValue :=
  match v with
  | .null => .null
  | .obj fs =>
    if hasKey fs "x" && hasKey fs "y" && hasKey fs "z" then
      .arr [pyGet fs "x", pyGet fs "y", pyGet fs "z"]
    else if hasKey fs "pitch" && hasKey fs "roll" && hasKey fs "yaw" then
      .arr [pyGet fs "pitch", pyGet fs "roll", pyGet fs "yaw"]
    else if hasKey fs "alpha" && hasKey fs "beta" && hasKey fs "gamma" then
      .arr [pyGet fs "alpha", pyGet fs "beta", pyGet fs "gamma"]
    else .obj fs
  | w => w

/-- Configured sampling rate `SAMPLE_RATE_HZ = 10.0`. -/
def SAMPLE_RATE_HZ : ℚ := 10

/-- Static fallback `DEVICE_SUBJECT_MAP` (already lower-cased at startup). -/
def DEVICE_SUBJECT_MAP : List (String × Int) :=
  [("f327b3b2-6e63-4e33-be0d-67895b57a9ca", 1),
   ("fa74299f-9ee8-48e7-9381-c46de923a6a5", 2),
   ("947886d2-c812-4aae-ad83-7b2e883e4efd", 3)]

/-- The per-subject throttle gate inlined in `receive_data`: a record is
dropped when a previous record was admitted for the subject and the new
timestamp is less than `1.0 / SAMPLE_RATE_HZ` seconds after it. -/
def throttleAdmits (last : Option ℚ) (ts : ℚ) : Bool :=
  match last with
  | none => true
  | some l => !(ts - l < 1 / SAMPLE_RATE_HZ)

/-- One row of `sensor_insert_queue`, mirroring the 9-tuple built in
`receive_data`. -/
structure Row where
  table : String
  ts : ℚ
  subject_id : Int
  accelerometer : JValue
  gyroscope : JValue
  orientation : JValue
  gravity : JValue
  placement : JValue
  activity : JValue

/-- Capacity of `sensor_insert_queue = queue.Queue(maxsize=5000)`. -/
def QUEUE_MAXSIZE : Nat := 5000

/-- Model of `sensor_insert_queue.put_nowait(row)` with the surrounding
`except queue.Full` handler: on a full queue the row is dropped and the
queue is untouched; otherwise the row is appended at the tail.  The
boolean reports whether the row was enqueued. -/
def put_nowait (q : List Row) (r : Row) : List Row × Bool :=
  if QUEUE_MAXSIZE ≤ q.length then (q, false) else (q ++ [r], true)

/-- The four vector channels of a normalized record, as held in a Style B
`by_time` entry (all initialised to `None`) or extracted per reading in
Style A. -/
structure Channels where
  accelerometer : JValue
  gyroscope : JValue
  orientation : JValue
  gravity : JValue

/-- Fresh `by_time` entry: all four channels `None`. -/
def emptyChannels : Channels := ⟨.null, .null, .null, .null⟩

/-- Python `any([acc, gyro, ori, grav])` over the four channel values. -/
def channelsAnyTruthy (c : Channels) : Bool :=
  c.accelerometer.truthy || c.gyroscope.truthy || c.orientation.truthy || c.gravity.truthy

/-- Assignment `entry[name] = v` for one of the four channel keys. -/
def setChannel (c : Channels) (name : String) (v : JValue) : Channels :=
  if name = "accelerometer" then { c with accelerometer := v }
  else if name = "gyroscope" then { c with gyroscope := v }
  else if name = "orientation" then { c with orientation := v }
  else if name = "gravity" then { c with gravity := v }
  else c

/-- Keys of a fresh `by_time` entry; `name in entry` tests membership here. -/
def channelNames : List String :=
  ["accelerometer", "gyroscope", "orientation", "gravity"]

/-- Python `by_time.setdefault(ts, fresh)` followed by a mutation of the
returned entry: update the entry at `ts` in place, or append a fresh,
mutated entry at the tail when `ts` is a new key. -/
def btSetdefaultUpdate (bt : List (ℚ × Channels)) (ts : ℚ) (f : Channels → Channels) :
    List (ℚ × Channels) :=
  match bt with
  | [] => [(ts, f emptyChannels)]
  | (t, c) :: rest =>
    if t = ts then (t, f c) :: rest else (t, c) :: btSetdefaultUpdate rest ts f

/-- One iteration of the Style B grouping loop of `receive_data`: derive the
timestamp, `setdefault` the `by_time` entry, lower-case the sensor name,
pick `values`/`value`/the reading itself, and store the extracted vector
when the name is one of the four channels. -/
def styleBStep (bt : List (ℚ × Channels)) (r : JValue) :
    Except String (List (ℚ × Channels)) :=
  match r with
  | .obj fs =>
    match extract_ts (.obj fs) with
    | .error e => .error e
    | .ok ts =>
      match pyOr (pyGet fs "name") (.str "") with
      | .str rawName =>
        let name := pyLower rawName
        let vals := pyOr (pyGet fs "values") (pyOr (pyGet fs "value") (.obj fs))
        if channelNames.contains name then
          .ok (btSetdefaultUpdate bt ts (fun c => setChannel c name (vec3_xyz_or_pry vals)))
        else
          .ok (btSetdefaultUpdate bt ts id)
      | _ => .error "AttributeError: lower"
  | _ => .error "AttributeError: get"

/-- Style B grouping loop over the whole payload, starting from a given
`by_time` dict. -/
def styleBGroupsAux (bt : List (ℚ × Channels)) : List JValue →
    Except String (List (ℚ × Channels))
  | [] => .ok bt
  | r :: rest =>
    match styleBStep bt r with
    | .error e => .error e
    | .ok bt2 => styleBGroupsAux bt2 rest

/-- The `by_time` dict built by the Style B branch of `receive_data`:
one entry per distinct derived timestamp, in first-occurrence order. -/
def styleBGroups (payload : List JValue) : Except String (List (ℚ × Channels)) :=
  styleBGroupsAux [] payload

/-- Per-reading normalization of the Style A branch of `receive_data`:
derive the timestamp, extract the four channels with `vec3_xyz_or_pry`,
and drop the reading (`none`) when all four channels are falsy. -/
def normalizeReadingA (reading : JValue) : Except String (Option (ℚ × Channels)) :=
  match reading with
  | .obj fs =>
    match extract_ts (.obj fs) with
    | .error e => .error e
    | .ok ts =>
      let c : Channels :=
        ⟨vec3_xyz_or_pry (pyGet fs "accelerometer"),
         vec3_xyz_or_pry (pyGet fs "gyroscope"),
         vec3_xyz_or_pry (pyGet fs "orientation"),
         vec3_xyz_or_pry (pyGet fs "gravity")⟩
      if channelsAnyTruthy c then .ok (some (ts, c)) else .ok none
  | _ => .error "AttributeError: get"

/-- Style-B detection at line 196: payload truthy, first element a dict,
and that dict has a "name" key. -/
def styleBDetect : List JValue → Bool
  | [] => false
  | v :: _ =>
    match v with
    | .obj fs => hasKey fs "name"
    | _ => false

/-- Records produced by the Style B normalizer before the throttle: the
`by_time` groups whose merged channels contain at least one truthy value
(the all-falsy groups are skipped by the emit loop). -/
def styleBRecords (payload : List JValue) : Except String (List (ℚ × Channels)) :=
  match styleBGroups payload with
  | .error e => .error e
  | .ok gs => .ok (gs.filter (fun p => channelsAnyTruthy p.2))

/-- Records produced by the Style A normalizer before the throttle: one per
reading that keeps at least one truthy channel, in payload order. -/
def styleARecords : List JValue → Except String (List (ℚ × Channels))
  | [] => .ok []
  | r :: rest =>
    match normalizeReadingA r with
    | .error e => .error e
    | .ok none => styleARecords rest
    | .ok (some rc) =>
      match styleARecords rest with
      | .error e => .error e
      | .ok rs => .ok (rc :: rs)

/-- Observable I/O of one request, in order: schema-ensuring storage calls
and the outcome of each enqueue attempt. -/
inductive Effect where
  | ensureTable (subject_id : Int)
  | enqueued
  | droppedFull

/-- Whether an effect is a schema-ensuring storage call. -/
def isEnsure : Effect → Bool
  | .ensureTable _ => true
  | _ => false

/-- HTTP responses of the three intake endpoints. -/
inductive Response where
  | queued (records : Nat)
  | okConfigure
  | okMap (device : String) (subject : Int)
  | clientError (msg : String)
  | serverError (msg : String)

/-- Numeric status code of a response (200, 400 or 500). -/
def Response.status : Response → Nat
  | .queued _ => 200
  | .okConfigure => 200
  | .okMap _ _ => 200
  | .clientError _ => 400
  | .serverError _ => 500

/-- The mutable module-level globals of the program: `subject_configs`,
`CURRENT_DEVICE_SUBJECT`, the `last_ts` slots of `last_values`, the
contents of `sensor_insert_queue`, and the set of storage tables created
so far.  The other four slots of each `last_values` entry are never read
or written by the program and are omitted. -/
structure ServerState where
  subject_configs : List (Int × List (String × JValue))
  current_device_subject : List (String × Int)
  last_ts : List (Int × ℚ)
  queue : List Row
  tables : List String

/-- Model of `create_subject_table(subject_id)`: the table name used by
the program, and idempotent creation in the set of tables. -/
def tableName (sid : Int) : String :=
  "sensor_logs_subject_" ++ toString sid

/-- Idempotent `CREATE TABLE IF NOT EXISTS` on the set of created tables. -/
def insertIfAbsent (ts : List String) (t : String) : List String :=
  if ts.contains t then ts else ts ++ [t]

/-- Device resolution of `receive_data`: dynamic `CURRENT_DEVICE_SUBJECT`
first, then the static `DEVICE_SUBJECT_MAP`. -/
def resolveSubject (st : ServerState) (device_id : String) : Option Int :=
  match lookupAssoc st.current_device_subject device_id with
  | some sid => some sid
  | none => lookupAssoc DEVICE_SUBJECT_MAP device_id

/-- Write-back of the per-subject `last_ts` slot after a request: `none`
means it was never assigned during the request (and was absent before). -/
def updateLast (m : List (Int × ℚ)) (sid : Int) : Option ℚ → List (Int × ℚ)
  | none => m
  | some t => updateAssoc m sid t

/-- Outcome of draining the throttle-and-enqueue part of a loop body. -/
structure StepOut where
  last : Option ℚ
  queue : List Row
  effects : List Effect

/-- Throttle-and-enqueue block shared by both payload styles: if the
throttle admits the record, set `last_ts` to the new timestamp, build the
row and attempt a non-blocking enqueue (recording a drop on a full
queue); otherwise skip the record. -/
def processRecord (table : String) (sid : Int) (plc act : JValue)
    (ts : ℚ) (c : Channels) (last : Option ℚ) (q : List Row) : StepOut :=
  if throttleAdmits last ts then
    let row : Row :=
      ⟨table, ts, sid, c.accelerometer, c.gyroscope, c.orientation, c.gravity, plc, act⟩
    let res := put_nowait q row
    ⟨some ts, res.1, if res.2 then [Effect.enqueued] else [Effect.droppedFull]⟩
  else ⟨last, q, []⟩

/-- Outcome of a Style A loop: final `last_ts`, queue, effect trace, and
the exception (if any) that aborted the loop. -/
structure LoopOut where
  last : Option ℚ
  queue : List Row
  effects : List Effect
  err : Option String

/-- The Style A loop of `receive_data`: per reading, normalize, skip
all-falsy readings, throttle and enqueue; an exception aborts the loop
but keeps the updates already made. -/
def runStyleA (table : String) (sid : Int) (plc act : JValue) :
    List JValue → Option ℚ → List Row → LoopOut
  | [], last, q => ⟨last, q, [], none⟩
  | r :: rest, last, q =>
    match normalizeReadingA r with
    | .error e => ⟨last, q, [], some e⟩
    | .ok none => runStyleA table sid plc act rest last q
    | .ok (some rc) =>
      let p := processRecord table sid plc act rc.1 rc.2 last q
      let out := runStyleA table sid plc act rest p.last p.queue
      ⟨out.last, out.queue, p.effects ++ out.effects, out.err⟩

/-- The Style B emit loop of `receive_data` over the `by_time` entries:
skip all-falsy groups, throttle and enqueue the rest. -/
def runStyleB (table : String) (sid : Int) (plc act : JValue) :
    List (ℚ × Channels) → Option ℚ → List Row → StepOut
  | [], last, q => ⟨last, q, []⟩
  | (ts, c) :: rest, last, q =>
    if channelsAnyTruthy c then
      let p := processRecord table sid plc act ts c last q
      let out := runStyleB table sid plc act rest p.last p.queue
      ⟨out.last, out.queue, p.effects ++ out.effects⟩
    else runStyleB table sid plc act rest last q

/-- Data resolved by the front section of `receive_data` (lines 173-188),
before `create_subject_table` is reached. -/
structure DataFront where
  subject_id : Int
  activity : JValue
  placement : JValue
  payloadVal : JValue

/-- Front section of `receive_data` (lines 173-188): read the device id
and the payload, resolve the subject, require a truthy config with
`activity` and `placement` keys.  An error carries the early-exit
response (400 for the client-input failures, 500 for the exceptions). -/
def receive_data_front (st : ServerState) (body : JValue) :
    Except Response DataFront :=
  match body with
  | .obj fs =>
    match pyOr (pyGet fs "deviceId") (.str "") with
    | .str devRaw =>
      let device_id := pyLower devRaw
      match resolveSubject st device_id with
      | none =>
        .error (.clientError
          ("Device " ++ device_id ++ " not mapped. POST /map_subject first."))
      | some subject_id =>
        match lookupAssoc st.subject_configs subject_id with
        | none => .error (.clientError "No config for subject")
        | some cfg =>
          if cfg.isEmpty then .error (.clientError "No config for subject")
          else if !hasKey cfg "activity" then .error (.serverError "KeyError: activity")
          else if !hasKey cfg "placement" then .error (.serverError "KeyError: placement")
          else
            .ok ⟨subject_id, pyGet cfg "activity", pyGet cfg "placement",
                 pyGetD fs "payload" (.arr [])⟩
    | _ => .error (.serverError "AttributeError: lower")
  | _ => .error (.serverError "AttributeError: get")

/-- Processing section of `receive_data` (lines 190-272), run once the
front checks have produced a `DataFront`: ensure the subject's table,
then normalize, throttle and enqueue the payload in the detected style.
An exception is answered 500 while keeping the mutations already made.
Non-list payloads follow the source's duck typing: a string is iterated
character by character by the Style A loop (the empty string succeeds
with zero records, a non-empty one raises on the first character's
`.get`); a dict is truthy iff non-empty, and then `payload[0]` raises
`KeyError` at the detection line (parsed JSON keys are strings), while
the empty dict runs the Style A loop over zero keys and succeeds with
zero records; `None`, booleans and numbers raise either at `payload[0]`
(truthy) or in the `for` statement (falsy). -/
def receive_data_process (st : ServerState) (f : DataFront) :
    ServerState × List Effect × Response :=
  let subject_id := f.subject_id
  let table := tableName subject_id
  let st1 : ServerState := { st with tables := insertIfAbsent st.tables table }
  match f.payloadVal with
  | .arr payload =>
    let last0 := lookupAssoc st1.last_ts subject_id
    if styleBDetect payload then
      match styleBGroups payload with
      | .error e => (st1, [.ensureTable subject_id], .serverError e)
      | .ok groups =>
        let out := runStyleB table subject_id f.placement f.activity groups last0 st1.queue
        ({ st1 with queue := out.queue,
                    last_ts := updateLast st1.last_ts subject_id out.last },
         .ensureTable subject_id :: out.effects, .queued payload.length)
    else
      let out := runStyleA table subject_id f.placement f.activity payload last0 st1.queue
      let st2 : ServerState :=
        { st1 with queue := out.queue,
                   last_ts := updateLast st1.last_ts subject_id out.last }
      match out.err with
      | some e => (st2, .ensureTable subject_id :: out.effects, .serverError e)
      | none => (st2, .ensureTable subject_id :: out.effects, .queued payload.length)
  | .str s =>
    let payload := s.toList.map (fun ch => JValue.str (String.singleton ch))
    let last0 := lookupAssoc st1.last_ts subject_id
    let out := runStyleA table subject_id f.placement f.activity payload last0 st1.queue
    let st2 : ServerState :=
      { st1 with queue := out.queue,
                 last_ts := updateLast st1.last_ts subject_id out.last }
    match out.err with
    | some e => (st2, .ensureTable subject_id :: out.effects, .serverError e)
    | none => (st2, .ensureTable subject_id :: out.effects, .queued payload.length)
  | .obj fs =>
    if fs.isEmpty then (st1, [.ensureTable subject_id], .queued 0)
    else (st1, [.ensureTable subject_id], .serverError "KeyError: 0")
  | _ => (st1, [.ensureTable subject_id], .serverError "TypeError: payload not iterable")

/-- Model of the `/data` handler `receive_data`: run the front checks,
then the processing section.  The client-input failures (unmapped device,
unconfigured subject) are answered with a 400 response and leave the
state untouched. -/
def receive_data (st : ServerState) (body : JValue) :
    ServerState × List Effect × Response :=
  match receive_data_front st body with
  | .error resp => (st, [], resp)
  | .ok f => receive_data_process st f

/-- Python `int(v)` on the values a JSON body can hold: numbers truncate
toward zero, integer-literal strings parse, booleans cast, anything else
raises. -/
def pyInt : JValue → Except String Int
  | .num q => .ok (if 0 ≤ q then ⌊q⌋ else ⌈q⌉)
  | .str s => match s.trim.toInt? with
    | some n => .ok n
    | none => .error "invalid literal for int"
  | .bool b => .ok (if b then 1 else 0)
  | _ => .error "TypeError: int"

/-- One iteration of the `/configure` loop: read `subject_id`, `activity`
and `placement` from the entry, upsert the SubjectConfig, and ensure the
subject's table.  Any missing key or bad value raises. -/
def configureStep (st : ServerState) (c : JValue) :
    Except String (ServerState × Int) :=
  match c with
  | .obj fs =>
    if !hasKey fs "subject_id" then .error "KeyError: subject_id"
    else
      match pyInt (pyGet fs "subject_id") with
      | .error e => .error e
      | .ok sid =>
        if !hasKey fs "activity" then .error "KeyError: activity"
        else if !hasKey fs "placement" then .error "KeyError: placement"
        else
          let cfg := [("activity", pyGet fs "activity"), ("placement", pyGet fs "placement")]
          let st1 : ServerState :=
            { st with subject_configs := updateAssoc st.subject_configs sid cfg }
          .ok ({ st1 with tables := insertIfAbsent st1.tables (tableName sid) }, sid)
  | _ => .error "TypeError: not subscriptable"

/-- The `/configure` loop over the parsed body: entries are applied one at
a time; an exception stops the loop, keeps the entries already applied
and answers 400. -/
def configureGo (st : ServerState) (effs : List Effect) :
    List JValue → ServerState × List Effect × Response
  | [] => (st, effs, .okConfigure)
  | c :: rest =>
    match configureStep st c with
    | .error e => (st, effs, .clientError e)
    | .ok res => configureGo res.1 (effs ++ [.ensureTable res.2]) rest

/-- Model of the `/configure` handler `configure_subjects`: iterate over
the body (a JSON array; iterating a dict yields its keys, a string its
characters), upserting one SubjectConfig and ensuring one table per
entry.  Every exception is answered with 400. -/
def configure_subjects (st : ServerState) (body : JValue) :
    ServerState × List Effect × Response :=
  match body with
  | .arr cfgs => configureGo st [] cfgs
  | .obj fs => configureGo st [] (fs.map (fun p => JValue.str p.1))
  | .str s => configureGo st [] (s.toList.map (fun ch => JValue.str (String.singleton ch)))
  | _ => (st, [], .clientError "TypeError: not iterable")

/-- The partial-config merge of `map_subject` (lines 159-163):
`setdefault(sid, empty)` followed by the two conditional field writes, run
only when `act` or `plc` is truthy. -/
def mergePartialConfig (cfgs : List (Int × List (String × JValue)))
    (sid : Int) (act plc : JValue) : List (Int × List (String × JValue)) :=
  if act.truthy || plc.truthy then
    let cfg0 := (lookupAssoc cfgs sid).getD []
    let cfg1 := if act.truthy then updateAssoc cfg0 "activity" act else cfg0
    let cfg2 := if plc.truthy then updateAssoc cfg1 "placement" plc else cfg1
    updateAssoc cfgs sid cfg2
  else cfgs

/-- Model of the `/map_subject` handler `map_subject`: lower-case the
device id, parse `subject_id`, reject an empty device id with 400, upsert
the dynamic mapping, merge the optional partial config, and ensure the
subject's table.  Exceptions are answered with 500. -/
def map_subject (st : ServerState) (body : JValue) :
    ServerState × List Effect × Response :=
  match body with
  | .obj fs =>
    match pyOr (pyGet fs "deviceId") (.str "") with
    | .str devRaw =>
      let dev := pyLower devRaw
      if !hasKey fs "subject_id" then (st, [], .serverError "KeyError: subject_id")
      else
        match pyInt (pyGet fs "subject_id") with
        | .error e => (st, [], .serverError e)
        | .ok sid =>
          if dev = "" then (st, [], .clientError "deviceId required")
          else
            let st1 : ServerState :=
              { st with current_device_subject := updateAssoc st.current_device_subject dev sid }
            let st2 : ServerState :=
              { st1 with subject_configs :=
                  mergePartialConfig st1.subject_configs sid (pyGet fs "activity") (pyGet fs "placement") }
            ({ st2 with tables := insertIfAbsent st2.tables (tableName sid) },
             [.ensureTable sid], .okMap dev sid)
    | _ => (st, [], .serverError "AttributeError: lower")
  | _ => (st, [], .serverError "AttributeError: get")

/-- The front checks of `receive_data` before `create_subject_table` is
reached: the body is a dict whose device id resolves to a subject with a
non-empty config holding both `activity` and `placement`. -/
def dataChecksPass (st : ServerState) (body : JValue) : Bool :=
  match receive_data_front st body with
  | .ok _ => true
  | .error _ => false

/-- States of the video-capture worker (`Idle -> Opening -> Capturing ->
Stopped`). -/
inductive CaptureState where
  | idle
  | opening
  | capturing
  | stopped

/-- Outcome of the stream-open step of `reolink_capture_thread` (lines
340-344): on `cap.isOpened()` the worker proceeds to capturing; otherwise
it sets `stop_event` and returns.  The boolean is the Shutdown
Coordinator signal after the step, given its value before. -/
def reolink_open_result (stopBefore : Bool) (isOpened : Bool) : CaptureState × Bool :=
  if isOpened then (.capturing, stopBefore) else (.stopped, true)

/-- Blocking-dequeue timeout (seconds) of `db_writer_thread`
(`sensor_insert_queue.get(timeout=1)`), the writer's poll interval. -/
def db_writer_poll_timeout : ℚ := 1

/-- Loop guard of `db_writer_thread` (`while not stop_event.is_set()`),
over the signal values observed at successive loop boundaries: iteration
`n` begins iff the signal was still clear at every boundary check up to
and including the `n`-th. -/
def db_writer_runs_iteration (sig : Nat → Bool) (n : Nat) : Bool :=
  decide (∀ m, m ≤ n → sig m = false)

/-- Example SubjectConfig (activity "idle", placement "back"). -/
def exCfg : List (String × JValue) :=
  [("activity", .str "idle"), ("placement", .str "back")]

/-- Example server state: subject 1 configured and device "dev" mapped to
it dynamically; empty queue, no tables yet. -/
def exSt : ServerState := ⟨[(1, exCfg)], [("dev", 1)], [], [], []⟩

/-- Server state at process start: empty registries, empty queue, no
dynamically created tables. -/
def emptySt : ServerState := ⟨[], [], [], [], []⟩

/-- Server state after the valid first entry of the C2 counterexample
payload was applied by `/configure`. -/
def c2AfterSt : ServerState := ⟨[(1, exCfg)], [], [], [], ["sensor_logs_subject_1"]⟩

/-- Whether at least one of a row's four vector channels is present
(not `None`). -/
def rowSomeChannelPresent (r : Row) : Bool :=
  r.accelerometer.isNotNull || r.gyroscope.isNotNull ||
    r.orientation.isNotNull || r.gravity.isNotNull

/-- Python `len(v)` on the sized values a payload can be (list, string,
dict); `none` on the unsized values, whose requests never reach the
final `len(payload)` call. -/
def pyLen : JValue → Option Nat
  | .arr xs => some xs.length
  | .str s => some s.length
  | .obj fs => some fs.length
  | _ => none

/-- Length of the payload of a /data body, as `receive_data` reads it
(`data.get("payload", [])`) and reports it (`len(payload)`); `none` when
the body is not a dict or the payload has no length. -/
def payloadLen (body : JValue) : Option Nat :=
  match body with
  | .obj fs => pyLen (pyGetD fs "payload" (.arr []))
  | _ => none

/-- The single row enqueued by the C10 counter-scenario before the second
reading raises. -/
def c10Row : Row :=
  ⟨"sensor_logs_subject_1", 5, 1, .arr [.num 1, .num 2, .num 3],
   .null, .null, .null, .str "back", .str "idle"⟩

/-- Server state after the C10 two-reading request: the first record is on
the queue, the throttle remembers its timestamp, the table is ensured. -/
def c10AfterSt : ServerState :=
  { exSt with
    queue := [c10Row],
    last_ts := [(1, 5)],
    tables := ["sensor_logs_subject_1"] }

/-- Style A payload of the C5 counterexample: two non-null readings with
the same derived timestamp, the first without a "name" key. -/
def c5APayload : List JValue :=
  [.obj [("time", .num 5),
     ("accelerometer", .obj [("x", .num 1), ("y", .num 2), ("z", .num 3)])],
   .obj [("time", .num 5),
     ("gyroscope", .obj [("x", .num 4), ("y", .num 5), ("z", .num 6)])]]

/-- First normalized record of the C5 counterexample payload. -/
def c5Rec1 : ℚ × Channels :=
  (5, ⟨.arr [.num 1, .num 2, .num 3], .null, .null, .null⟩)

/-- Second normalized record of the C5 counterexample payload. -/
def c5Rec2 : ℚ × Channels :=
  (5, ⟨.null, .arr [.num 4, .num 5, .num 6], .null, .null⟩)

/-- Style B payload with one accelerometer sample, used by the C5
witness. -/
def c5BPayload : List JValue :=
  [.obj [("name", .str "accelerometer"), ("time", .num 5),
     ("values", .obj [("x", .num 1), ("y", .num 2), ("z", .num 3)])]]

/-- Server state for the C3 end-to-end example: subject 1 mapped and
configured, with a record already admitted at 0.00 s. -/
def c3St : ServerState := ⟨[(1, exCfg)], [("dev", 1)], [(1, 0)], [], []⟩

/-- /data body holding a single accelerometer reading at timestamp `t`
seconds, for the C3 throttle examples. -/
def c3Body (t : ℚ) : JValue :=
  .obj [("deviceId", .str "dev"),
    ("payload", .arr [.obj [("time", .num t),
      ("accelerometer", .obj [("x", .num 1), ("y", .num 2), ("z", .num 3)])]])]

/-- Row enqueued by the admitted 0.15 s reading of the C3 example. -/
def c3Row : Row :=
  ⟨"sensor_logs_subject_1", 15 / 100, 1, .arr [.num 1, .num 2, .num 3],
   .null, .null, .null, .str "back", .str "idle"⟩

/- ------------------------------------------------------------------ -/
/- Claim theorems                                                     -/
/- ------------------------------------------------------------------ -/

lemma receive_data_error_eq {st : ServerState} {body : JValue} {resp : Response}
    (hf : receive_data_front st body = .error resp) :
    receive_data st body = (st, [], resp) := by
  unfold receive_data
  rw [hf]

lemma receive_data_ok_eq {st : ServerState} {body : JValue} {f : DataFront}
    (hf : receive_data_front st body = .ok f) :
    receive_data st body = receive_data_process st f := by
  unfold receive_data
  rw [hf]

lemma countP_isEnsure_processRecord (table : String) (sid : Int) (plc act : JValue)
    (ts : ℚ) (c : Channels) (last : Option ℚ) (q : List Row) :
    (processRecord table sid plc act ts c last q).effects.countP isEnsure = 0 := by
  cases hA : throttleAdmits last ts <;>
    simp [processRecord, hA, isEnsure, apply_ite (List.countP isEnsure)]

lemma countP_isEnsure_runStyleA (table : String) (sid : Int) (plc act : JValue) :
    ∀ (payload : List JValue) (last : Option ℚ) (q : List Row),
      (runStyleA table sid plc act payload last q).effects.countP isEnsure = 0
  | [], _, _ => rfl
  | r :: rest, last, q => by
    unfold runStyleA
    cases h : normalizeReadingA r with
    | error e => rfl
    | ok o =>
      cases o with
      | none => exact countP_isEnsure_runStyleA table sid plc act rest last q
      | some rc =>
        simp only [List.countP_append]
        rw [countP_isEnsure_processRecord, countP_isEnsure_runStyleA]

lemma countP_isEnsure_runStyleB (table : String) (sid : Int) (plc act : JValue) :
    ∀ (groups : List (ℚ × Channels)) (last : Option ℚ) (q : List Row),
      (runStyleB table sid plc act groups last q).effects.countP isEnsure = 0
  | [], _, _ => rfl
  | (ts, c) :: rest, last, q => by
    unfold runStyleB
    by_cases h : channelsAnyTruthy c = true
    · simp only [h, if_true, List.countP_append]
      rw [countP_isEnsure_processRecord, countP_isEnsure_runStyleB]
    · simp only [Bool.not_eq_true] at h
      simp only [h, Bool.false_eq_true, if_false]
      exact countP_isEnsure_runStyleB table sid plc act rest last q

/-- C1 counterexample: handling a concrete POST /data request (mapped
device, configured subject, empty payload) does perform a schema-ensuring
storage operation — its effect trace is exactly one table-ensure call —
refuting the claim that /data performs no schema-ensuring I/O. -/
theorem data_request_performs_table_ensure :
    receive_data exSt (.obj [("deviceId", .str "dev"), ("payload", .arr [])]) =
      ({ exSt with tables := ["sensor_logs_subject_1"] },
       [.ensureTable 1], .queued 0) := by
  norm_num +decide [receive_data, receive_data_front, receive_data_process, exSt, exCfg, pyOr, pyGet, pyGetD,
    lookupAssoc, JValue.truthy, resolveSubject, DEVICE_SUBJECT_MAP, hasKey, tableName,
    insertIfAbsent, styleBDetect, runStyleA, pyLower, updateLast]

/-- C1 amended: a /data request performs exactly one schema-ensuring
storage operation when it passes the device-mapping and configuration
checks (and none otherwise) — once per request, never per reading — while
/configure and /map_subject also perform table-ensure I/O. -/
theorem data_table_ensure_iff_front_checks (st : ServerState) (body : JValue) :
    ((receive_data st body).2.1).countP isEnsure =
      (if dataChecksPass st body then 1 else 0) := by
  cases hf : receive_data_front st body with
  | error resp =>
    rw [receive_data_error_eq hf]
    simp [dataChecksPass, hf]
  | ok f =>
    rw [receive_data_ok_eq hf]
    simp only [dataChecksPass, hf, if_true]
    simp only [receive_data_process]
    repeat' split
    all_goals simp [List.countP_cons, isEnsure, countP_isEnsure_runStyleA,
      countP_isEnsure_runStyleB]

/-- C2 counterexample: a /configure request whose second entry is
malformed is answered 400 — a client-input-error response — yet the
SubjectConfig map and the set of storage tables retain the mutations made
for the valid first entry, refuting "no server state changed". -/
theorem configure_client_error_mutates_state :
    configure_subjects emptySt
        (.arr [.obj [("subject_id", .num 1), ("activity", .str "idle"),
                     ("placement", .str "back")],
               .obj []]) =
      (c2AfterSt, [.ensureTable 1], .clientError "KeyError: subject_id") ∧
    c2AfterSt ≠ emptySt := by
  constructor
  · norm_num +decide [configure_subjects, configureGo, configureStep, pyInt, pyGet,
      pyGetD, lookupAssoc, hasKey, updateAssoc, insertIfAbsent, tableName, emptySt,
      c2AfterSt, exCfg]
  · simp [c2AfterSt, emptySt, exCfg]

/-- C2 amended: a 4xx (client-input-error) response from /map_subject or
/data leaves the server state exactly as it was; a 400 from /configure
may instead leave the configurations and tables of the entries processed
before the malformed one applied. -/
theorem map_and_data_client_errors_preserve_state :
    (∀ (st : ServerState) (body : JValue) (e : String),
      (map_subject st body).2.2 = .clientError e → (map_subject st body).1 = st) ∧
    (∀ (st : ServerState) (body : JValue) (e : String),
      (receive_data st body).2.2 = .clientError e → (receive_data st body).1 = st) := by
  constructor
  · intro st body e h
    rcases hm : map_subject st body with ⟨s, effs, r⟩
    rw [hm] at h
    simp only at h
    simp only
    subst h
    unfold map_subject at hm
    repeat' split at hm
    all_goals try simp_all
    all_goals split_ifs at hm
    all_goals simp_all
  · intro st body e h
    rcases hm : receive_data st body with ⟨s, effs, r⟩
    rw [hm] at h
    simp only at h
    simp only
    subst h
    cases hf : receive_data_front st body with
    | error resp =>
      rw [receive_data_error_eq hf] at hm
      simp_all
    | ok f =>
      rw [receive_data_ok_eq hf] at hm
      simp only [receive_data_process] at hm
      repeat' split at hm
      all_goals simp_all

/-- C2 amended witness: a /map_subject request with an empty device id and
a /data request from an unmapped device are both answered with a client
error and leave the startup state untouched. -/
theorem map_and_data_client_errors_preserve_state_witness :
    (map_subject emptySt (.obj [("subject_id", .num 1)])).1 = emptySt ∧
    (receive_data emptySt (.obj [("deviceId", .str "x")])).1 = emptySt := by
  constructor
  · exact map_and_data_client_errors_preserve_state.1 emptySt _ "deviceId required"
      (by norm_num +decide [map_subject, mergePartialConfig, pyOr, pyGet, pyGetD,
        lookupAssoc, hasKey, JValue.truthy, pyInt, pyLower, emptySt])
  · exact map_and_data_client_errors_preserve_state.2 emptySt _
      "Device x not mapped. POST /map_subject first."
      (by norm_num +decide [receive_data, receive_data_front, receive_data_process, pyOr, pyGet, pyGetD,
        lookupAssoc, hasKey, JValue.truthy, pyLower, resolveSubject,
        DEVICE_SUBJECT_MAP, emptySt])

/-- C3: the throttle admits a record iff no record was previously admitted
for the subject or the new timestamp is at least `1 / SAMPLE_RATE_HZ`
seconds after the last admitted one; on admission the per-subject
last-accepted timestamp is set to the new record's timestamp, and a
rejection leaves it unchanged; with rate 10 Hz and a record admitted at
0.00 s, a record at 0.05 s is rejected — nothing enqueued, `last_ts`
still 0.00 s — while a record at 0.15 s is admitted — enqueued, with
`last_ts` set to 0.15 s. -/
theorem throttle_admits_iff_interval :
    (∀ (last : Option ℚ) (ts : ℚ),
      throttleAdmits last ts = true ↔
        (last = none ∨ ∃ l, last = some l ∧ 1 / SAMPLE_RATE_HZ ≤ ts - l)) ∧
    (∀ (table : String) (sid : Int) (plc act : JValue) (ts : ℚ) (c : Channels)
        (last : Option ℚ) (q : List Row),
      (throttleAdmits last ts = true →
        (processRecord table sid plc act ts c last q).last = some ts) ∧
      (throttleAdmits last ts = false →
        (processRecord table sid plc act ts c last q).last = last)) ∧
    throttleAdmits (some 0) (5 / 100) = false ∧
    throttleAdmits (some 0) (15 / 100) = true ∧
    (receive_data c3St (c3Body (5 / 100))).1.queue = [] ∧
    (receive_data c3St (c3Body (5 / 100))).1.last_ts = [(1, 0)] ∧
    (receive_data c3St (c3Body (15 / 100))).1.queue = [c3Row] ∧
    (receive_data c3St (c3Body (15 / 100))).1.last_ts = [(1, 15 / 100)] := by
  refine ⟨?_, ?_, by norm_num [throttleAdmits, SAMPLE_RATE_HZ],
    by norm_num [throttleAdmits, SAMPLE_RATE_HZ], ?_, ?_, ?_, ?_⟩
  · intro last ts
    cases last with
    | none => simp [throttleAdmits]
    | some l =>
      simp only [throttleAdmits, Bool.not_eq_true', decide_eq_false_iff_not, not_lt]
      constructor
      · intro h
        exact Or.inr ⟨l, rfl, h⟩
      · rintro (h | ⟨l', hl, h⟩)
        · exact absurd h (by simp)
        · cases hl; exact h
  · intro table sid plc act ts c last q
    constructor
    · intro h
      simp [processRecord, h]
    · intro h
      simp [processRecord, h]
  · norm_num +decide [receive_data, receive_data_front, receive_data_process, c3St,
      c3Body, c3Row, exCfg, pyOr, pyGet, pyGetD, lookupAssoc, JValue.truthy,
      resolveSubject, DEVICE_SUBJECT_MAP, hasKey, tableName, insertIfAbsent,
      styleBDetect, runStyleA, normalizeReadingA, extract_ts, tsChain, inferSec,
      pyLower, vec3_xyz_or_pry, channelsAnyTruthy, processRecord, throttleAdmits,
      SAMPLE_RATE_HZ, put_nowait, QUEUE_MAXSIZE, updateLast, updateAssoc]
  · norm_num +decide [receive_data, receive_data_front, receive_data_process, c3St,
      c3Body, c3Row, exCfg, pyOr, pyGet, pyGetD, lookupAssoc, JValue.truthy,
      resolveSubject, DEVICE_SUBJECT_MAP, hasKey, tableName, insertIfAbsent,
      styleBDetect, runStyleA, normalizeReadingA, extract_ts, tsChain, inferSec,
      pyLower, vec3_xyz_or_pry, channelsAnyTruthy, processRecord, throttleAdmits,
      SAMPLE_RATE_HZ, put_nowait, QUEUE_MAXSIZE, updateLast, updateAssoc]
  · norm_num +decide [receive_data, receive_data_front, receive_data_process, c3St,
      c3Body, c3Row, exCfg, pyOr, pyGet, pyGetD, lookupAssoc, JValue.truthy,
      resolveSubject, DEVICE_SUBJECT_MAP, hasKey, tableName, insertIfAbsent,
      styleBDetect, runStyleA, normalizeReadingA, extract_ts, tsChain, inferSec,
      pyLower, vec3_xyz_or_pry, channelsAnyTruthy, processRecord, throttleAdmits,
      SAMPLE_RATE_HZ, put_nowait, QUEUE_MAXSIZE, updateLast, updateAssoc]
  · norm_num +decide [receive_data, receive_data_front, receive_data_process, c3St,
      c3Body, c3Row, exCfg, pyOr, pyGet, pyGetD, lookupAssoc, JValue.truthy,
      resolveSubject, DEVICE_SUBJECT_MAP, hasKey, tableName, insertIfAbsent,
      styleBDetect, runStyleA, normalizeReadingA, extract_ts, tsChain, inferSec,
      pyLower, vec3_xyz_or_pry, channelsAnyTruthy, processRecord, throttleAdmits,
      SAMPLE_RATE_HZ, put_nowait, QUEUE_MAXSIZE, updateLast, updateAssoc]

/-- C3 witness: the last-timestamp update clause instantiated at the two
example timestamps — admission at 0.15 s writes the new timestamp into
the slot, rejection at 0.05 s keeps the previous 0.00 s value. -/
theorem throttle_admits_iff_interval_witness :
    (processRecord "t" 1 JValue.null JValue.null (15 / 100) emptyChannels
      (some 0) []).last = some (15 / 100) ∧
    (processRecord "t" 1 JValue.null JValue.null (5 / 100) emptyChannels
      (some 0) []).last = some 0 :=
  ⟨(throttle_admits_iff_interval.2.1 "t" 1 .null .null (15 / 100) emptyChannels
      (some 0) []).1 throttle_admits_iff_interval.2.2.2.1,
   (throttle_admits_iff_interval.2.1 "t" 1 .null .null (5 / 100) emptyChannels
      (some 0) []).2 throttle_admits_iff_interval.2.2.1⟩

/-- C4: the ingestion queue has capacity 5000, and an enqueue attempt on a
full queue is dropped: the queue value (hence its size and every queued
row) is unchanged and the attempt reports failure without blocking. -/
theorem put_nowait_full_drops (q : List Row) (r : Row)
    (h : q.length = QUEUE_MAXSIZE) :
    QUEUE_MAXSIZE = 5000 ∧ put_nowait q r = (q, false) := by
  refine ⟨rfl, ?_⟩
  simp [put_nowait, h]

/-- C4 witness: a concrete full queue of 5000 rows drops the 5001st row and
is left unchanged. -/
theorem put_nowait_full_drops_witness :
    QUEUE_MAXSIZE = 5000 ∧
      put_nowait (List.replicate 5000 ⟨"t", 0, 1, .null, .null, .null, .null, .null, .null⟩)
        ⟨"t", 1, 1, .null, .null, .null, .null, .null, .null⟩ =
      (List.replicate 5000 ⟨"t", 0, 1, .null, .null, .null, .null, .null, .null⟩, false) :=
  put_nowait_full_drops _ _ (by rw [List.length_replicate]; rfl)

/-- C6: for a reading whose timestamp-field chain yields the raw number
`q`, `extract_ts` succeeds and derives the instant by magnitude-based unit
inference: divide by 1e9 when `q` exceeds 1e15, by 1e3 when `q` exceeds
1e12, else take `q` as seconds. -/
theorem extract_ts_magnitude_inference (fs : List (String × JValue)) (q : ℚ)
    (h : tsChain fs = .num q) :
    extract_ts (.obj fs) =
      .ok (if 1000000000000000 < q then q / 1000000000
           else if 1000000000000 < q then q / 1000
           else q) := by
  simp only [extract_ts, h, inferSec]

/-- C6 witness: a nanosecond-scale, a millisecond-scale and a second-scale
timestamp are each converted as the inference rule states. -/
theorem extract_ts_magnitude_inference_witness :
    extract_ts (.obj [("timestamp", .num 1700000000000000000)]) = .ok 1700000000 ∧
    extract_ts (.obj [("time", .num 1700000000000)]) = .ok 1700000000 ∧
    extract_ts (.obj [("ts", .num 1700000000)]) = .ok 1700000000 := by
  refine ⟨?_, ?_, ?_⟩
  · have h := extract_ts_magnitude_inference [("timestamp", .num 1700000000000000000)]
      1700000000000000000 (by norm_num +decide [tsChain, pyOr, pyGet, pyGetD, lookupAssoc, JValue.truthy])
    simp only [h]
    try norm_num
  · have h := extract_ts_magnitude_inference [("time", .num 1700000000000)]
      1700000000000 (by norm_num +decide [tsChain, pyOr, pyGet, pyGetD, lookupAssoc, JValue.truthy])
    simp only [h]
    try norm_num
  · have h := extract_ts_magnitude_inference [("ts", .num 1700000000)]
      1700000000 (by norm_num +decide [tsChain, pyOr, pyGet, pyGetD, lookupAssoc, JValue.truthy])
    simp only [h]
    try norm_num

lemma truthy_isNotNull {v : JValue} (h : v.truthy = true) : v.isNotNull = true := by
  cases v <;> simp_all [JValue.truthy, JValue.isNotNull]

lemma channelsAnyTruthy_row_present (table : String) (sid : Int) (plc act : JValue)
    (ts : ℚ) (c : Channels) (hc : channelsAnyTruthy c = true) :
    rowSomeChannelPresent
      ⟨table, ts, sid, c.accelerometer, c.gyroscope, c.orientation, c.gravity, plc, act⟩ = true := by
  unfold channelsAnyTruthy at hc
  unfold rowSomeChannelPresent
  simp only [Bool.or_eq_true] at hc ⊢
  rcases hc with ((h | h) | h) | h
  · exact Or.inl (Or.inl (Or.inl (truthy_isNotNull h)))
  · exact Or.inl (Or.inl (Or.inr (truthy_isNotNull h)))
  · exact Or.inl (Or.inr (truthy_isNotNull h))
  · exact Or.inr (truthy_isNotNull h)

lemma processRecord_all_present (table : String) (sid : Int) (plc act : JValue)
    (ts : ℚ) (c : Channels) (last : Option ℚ) (q : List Row)
    (hq : q.all rowSomeChannelPresent = true) (hc : channelsAnyTruthy c = true) :
    ((processRecord table sid plc act ts c last q).queue).all rowSomeChannelPresent = true := by
  have hrow := channelsAnyTruthy_row_present table sid plc act ts c hc
  by_cases hA : throttleAdmits last ts = true
  · simp only [processRecord, hA, if_true]
    by_cases hFull : QUEUE_MAXSIZE ≤ q.length
    · simpa [put_nowait, hFull] using hq
    · simp [put_nowait, hFull, List.all_append, hq, hrow]
  · simp only [Bool.not_eq_true] at hA
    simpa [processRecord, hA] using hq

lemma runStyleA_all_present (table : String) (sid : Int) (plc act : JValue) :
    ∀ (payload : List JValue) (last : Option ℚ) (q : List Row),
      q.all rowSomeChannelPresent = true →
      ((runStyleA table sid plc act payload last q).queue).all rowSomeChannelPresent = true
  | [], _, _, hq => hq
  | r :: rest, last, q, hq => by
    unfold runStyleA
    cases h : normalizeReadingA r with
    | error e => exact hq
    | ok o =>
      cases o with
      | none => exact runStyleA_all_present table sid plc act rest last q hq
      | some rc =>
        have hc : channelsAnyTruthy rc.2 = true := by
          simp only [normalizeReadingA] at h
          repeat' split at h
          all_goals first
            | (simp_all; done)
            | (injection h with h2
               injection h2 with h3
               subst h3
               assumption)
        exact runStyleA_all_present table sid plc act rest _ _
          (processRecord_all_present table sid plc act rc.1 rc.2 last q hq hc)

lemma runStyleB_all_present (table : String) (sid : Int) (plc act : JValue) :
    ∀ (groups : List (ℚ × Channels)) (last : Option ℚ) (q : List Row),
      q.all rowSomeChannelPresent = true →
      ((runStyleB table sid plc act groups last q).queue).all rowSomeChannelPresent = true
  | [], _, _, hq => hq
  | (ts, c) :: rest, last, q, hq => by
    unfold runStyleB
    by_cases hc : channelsAnyTruthy c = true
    · simp only [hc, if_true]
      exact runStyleB_all_present table sid plc act rest _ _
        (processRecord_all_present table sid plc act ts c last q hq hc)
    · simp only [Bool.not_eq_true] at hc
      simp only [hc, Bool.false_eq_true, if_false]
      exact runStyleB_all_present table sid plc act rest last q hq

/-- C7: every record placed on the ingestion queue by a /data request has
at least one of its four vector channels present — if every row already
queued satisfies this, so does every row after the request, because a
record whose channels are all absent is discarded before the enqueue. -/
theorem queued_rows_have_some_channel (st : ServerState) (body : JValue)
    (h : st.queue.all rowSomeChannelPresent = true) :
    ((receive_data st body).1.queue).all rowSomeChannelPresent = true := by
  cases hf : receive_data_front st body with
  | error resp =>
    rw [receive_data_error_eq hf]
    simpa using h
  | ok f =>
    rw [receive_data_ok_eq hf]
    simp only [receive_data_process]
    repeat' split
    all_goals first
      | exact h
      | exact runStyleA_all_present _ _ _ _ _ _ _ h
      | exact runStyleB_all_present _ _ _ _ _ _ _ h

/-- C7 witness: starting from the example state (empty queue), a /data
request with one accelerometer reading leaves only channel-bearing rows
on the queue. -/
theorem queued_rows_have_some_channel_witness :
    exSt.queue.all rowSomeChannelPresent = true ∧
    ((receive_data exSt (.obj [("deviceId", .str "dev"),
        ("payload", .arr [.obj [("time", .num 7),
          ("accelerometer",
           .obj [("x", .num 1), ("y", .num 2), ("z", .num 3)])]])])).1.queue).all
      rowSomeChannelPresent = true :=
  ⟨rfl, queued_rows_have_some_channel _ _ rfl⟩

/-- C8: when the camera stream fails to open, the capture worker moves
directly to Stopped and raises the Shutdown Coordinator signal; the
persistence writer checks the signal at every loop boundary, so once the
signal is set at boundary `t` no iteration at or after `t` begins — the
writer exits within one poll interval, bounded by its 1-second blocking
dequeue timeout. -/
theorem capture_open_failure_stops_writer :
    (∀ stopBefore : Bool, reolink_open_result stopBefore false = (.stopped, true)) ∧
    (∀ (sig : Nat → Bool) (t n : Nat), sig t = true → t ≤ n →
      db_writer_runs_iteration sig n = false) ∧
    db_writer_poll_timeout = 1 := by
  refine ⟨fun _ => rfl, ?_, rfl⟩
  intro sig t n ht htn
  unfold db_writer_runs_iteration
  simp only [decide_eq_false_iff_not]
  intro hall
  exact absurd (hall t htn) (by simp [ht])

/-- C8 witness: with the signal raised from boundary 0 on, the writer
begins no iteration, and a failed open yields the Stopped state with the
signal set. -/
theorem capture_open_failure_stops_writer_witness :
    reolink_open_result false false = (CaptureState.stopped, true) ∧
    db_writer_runs_iteration (fun _ => true) 0 = false :=
  ⟨capture_open_failure_stops_writer.1 false,
   capture_open_failure_stops_writer.2.1 (fun _ => true) 0 0 rfl (Nat.le_refl 0)⟩

lemma receive_data_front_ok_payload {st : ServerState} {body : JValue} {f : DataFront}
    (h : receive_data_front st body = .ok f) :
    payloadLen body = pyLen f.payloadVal := by
  simp only [receive_data_front] at h
  repeat' split at h
  all_goals first
    | (simp_all [payloadLen]; done)
    | (injection h with h2
       subst h2
       rfl)

lemma receive_data_front_error_not_queued {st : ServerState} {body : JValue}
    {resp : Response} (h : receive_data_front st body = .error resp) (n : Nat) :
    resp ≠ .queued n := by
  simp only [receive_data_front] at h
  repeat' split at h
  all_goals first
    | (injection h with h2
       exact fun hq => Response.noConfusion (h2.trans hq))
    | injection h

/-- C9: a /data request answered 200 reports a record count equal to the
length of the input payload, independent of how many records were
enqueued; concretely, a payload with one all-null reading is answered
`queued 1` while the queue is left unchanged, and the falsy iterable
payloads `""` and an empty dict are answered `queued 0`. -/
theorem data_ok_reports_payload_length :
    (∀ (st : ServerState) (body : JValue) (n : Nat),
      (receive_data st body).2.2 = .queued n → payloadLen body = some n) ∧
    ((receive_data exSt (.obj [("deviceId", .str "dev"),
        ("payload", .arr [.obj [("time", .num 5)]])])).2.2 = .queued 1 ∧
     (receive_data exSt (.obj [("deviceId", .str "dev"),
        ("payload", .arr [.obj [("time", .num 5)]])])).1.queue = exSt.queue) ∧
    (receive_data exSt (.obj [("deviceId", .str "dev"),
        ("payload", .str "")])).2.2 = .queued 0 ∧
    (receive_data exSt (.obj [("deviceId", .str "dev"),
        ("payload", .obj [])])).2.2 = .queued 0 := by
  refine ⟨?_, ⟨?_, ?_⟩, ?_, ?_⟩
  · intro st body n h
    cases hf : receive_data_front st body with
    | error resp =>
      rw [receive_data_error_eq hf] at h
      simp only at h
      exact absurd h (receive_data_front_error_not_queued hf n)
    | ok f =>
      rw [receive_data_ok_eq hf] at h
      have hp := receive_data_front_ok_payload hf
      simp only [receive_data_process] at h
      cases hpv : f.payloadVal with
      | arr payload =>
        rw [hpv] at h hp
        simp only [pyLen] at hp
        rw [hp]
        repeat' split at h
        all_goals simp_all
      | null => rw [hpv] at h; simp_all
      | bool b => rw [hpv] at h; simp_all
      | num q => rw [hpv] at h; simp_all
      | str s =>
        rw [hpv] at h hp
        simp only [pyLen] at hp
        rw [hp]
        repeat' split at h
        all_goals simp_all [List.length_map]
      | obj gs =>
        rw [hpv] at h hp
        simp only [pyLen] at hp
        rw [hp]
        repeat' split at h
        all_goals simp_all [List.isEmpty_iff]
  · norm_num +decide [receive_data, receive_data_front, receive_data_process, exSt, exCfg, pyOr, pyGet,
      pyGetD, lookupAssoc, JValue.truthy, resolveSubject, DEVICE_SUBJECT_MAP, hasKey,
      tableName, insertIfAbsent, styleBDetect, runStyleA, normalizeReadingA, extract_ts,
      tsChain, inferSec, pyLower, vec3_xyz_or_pry, channelsAnyTruthy, updateLast]
  · norm_num +decide [receive_data, receive_data_front, receive_data_process, exSt, exCfg, pyOr, pyGet,
      pyGetD, lookupAssoc, JValue.truthy, resolveSubject, DEVICE_SUBJECT_MAP, hasKey,
      tableName, insertIfAbsent, styleBDetect, runStyleA, normalizeReadingA, extract_ts,
      tsChain, inferSec, pyLower, vec3_xyz_or_pry, channelsAnyTruthy, updateLast]
  · norm_num +decide [receive_data, receive_data_front, receive_data_process, exSt, exCfg, pyOr, pyGet,
      pyGetD, lookupAssoc, JValue.truthy, resolveSubject, DEVICE_SUBJECT_MAP, hasKey,
      tableName, insertIfAbsent, runStyleA, pyLower, updateLast, String.toList]
  · norm_num +decide [receive_data, receive_data_front, receive_data_process, exSt, exCfg, pyOr, pyGet,
      pyGetD, lookupAssoc, JValue.truthy, resolveSubject, DEVICE_SUBJECT_MAP, hasKey,
      tableName, insertIfAbsent, pyLower]

/-- C9 witness: instantiating the general count statement at the concrete
requests of the later conjuncts. -/
theorem data_ok_reports_payload_length_witness :
    payloadLen (.obj [("deviceId", .str "dev"),
      ("payload", .arr [.obj [("time", .num 5)]])]) = some 1 ∧
    payloadLen (.obj [("deviceId", .str "dev"), ("payload", .str "")]) = some 0 :=
  ⟨data_ok_reports_payload_length.1 exSt _ 1 data_ok_reports_payload_length.2.1.1,
   data_ok_reports_payload_length.1 exSt _ 0 data_ok_reports_payload_length.2.2.1⟩

lemma pyGet_eq_null_of_not_hasKey {fs : List (String × JValue)} {k : String}
    (h : hasKey fs k = false) : pyGet fs k = .null := by
  unfold hasKey at h
  unfold pyGet pyGetD
  cases hl : lookupAssoc fs k with
  | none => rfl
  | some v => rw [hl] at h; simp at h

lemma extract_ts_no_fields {rfs : List (String × JValue)}
    (h1 : hasKey rfs "timestamp" = false) (h2 : hasKey rfs "time" = false)
    (h3 : hasKey rfs "ts" = false) :
    extract_ts (.obj rfs) = .error "No timestamp" := by
  have hc : tsChain rfs = .null := by
    unfold tsChain
    rw [pyGet_eq_null_of_not_hasKey h1, pyGet_eq_null_of_not_hasKey h2,
        pyGet_eq_null_of_not_hasKey h3]
    rfl
  simp only [extract_ts]
  rw [hc]

lemma styleBStep_ok_extract {bt bt2 : List (ℚ × Channels)} {r : JValue}
    (h : styleBStep bt r = .ok bt2) : ∃ t, extract_ts r = .ok t := by
  simp only [styleBStep] at h
  repeat' split at h
  all_goals simp_all

lemma styleBGroupsAux_err :
    ∀ (bt : List (ℚ × Channels)) (payload : List JValue),
      (∃ r ∈ payload, ∃ e, extract_ts r = .error e) →
      ∃ e2, styleBGroupsAux bt payload = .error e2
  | bt, [], h => absurd h (by simp)
  | bt, r :: rest, h => by
    unfold styleBGroupsAux
    cases hs : styleBStep bt r with
    | error e => exact ⟨e, rfl⟩
    | ok bt2 =>
      apply styleBGroupsAux_err bt2 rest
      rcases h with ⟨r0, hr0, e0, he0⟩
      rcases List.mem_cons.mp hr0 with hEq | hMem
      · subst hEq
        rcases styleBStep_ok_extract hs with ⟨t, ht⟩
        rw [ht] at he0
        cases he0
      · exact ⟨r0, hMem, e0, he0⟩

lemma normalizeReadingA_ok_extract {r : JValue} {o : Option (ℚ × Channels)}
    (h : normalizeReadingA r = .ok o) : ∃ t, extract_ts r = .ok t := by
  simp only [normalizeReadingA] at h
  repeat' split at h
  all_goals simp_all

lemma runStyleA_err (table : String) (sid : Int) (plc act : JValue) :
    ∀ (payload : List JValue) (last : Option ℚ) (q : List Row),
      (∃ r ∈ payload, ∃ e, extract_ts r = .error e) →
      ((runStyleA table sid plc act payload last q).err).isSome = true
  | [], _, _, h => absurd h (by simp)
  | r :: rest, last, q, h => by
    unfold runStyleA
    cases hn : normalizeReadingA r with
    | error e => rfl
    | ok o =>
      have hRest : ∃ r0 ∈ rest, ∃ e, extract_ts r0 = .error e := by
        rcases h with ⟨r0, hr0, e0, he0⟩
        rcases List.mem_cons.mp hr0 with hEq | hMem
        · subst hEq
          rcases normalizeReadingA_ok_extract hn with ⟨t, ht⟩
          rw [ht] at he0
          cases he0
        · exact ⟨r0, hMem, e0, he0⟩
      cases o with
      | none => exact runStyleA_err table sid plc act rest last q hRest
      | some rc => exact runStyleA_err table sid plc act rest _ _ hRest

lemma dataChecksPass_front_ok {st : ServerState} {body : JValue}
    (h : dataChecksPass st body = true) :
    ∃ f, receive_data_front st body = .ok f := by
  unfold dataChecksPass at h
  cases hf : receive_data_front st body with
  | error resp => rw [hf] at h; simp at h
  | ok f => exact ⟨f, rfl⟩

lemma receive_data_front_ok_payloadVal {st : ServerState}
    {fs : List (String × JValue)} {f : DataFront}
    (h : receive_data_front st (.obj fs) = .ok f) :
    f.payloadVal = pyGetD fs "payload" (.arr []) := by
  simp only [receive_data_front] at h
  repeat' split at h
  all_goals first
    | (simp_all; done)
    | (injection h with h2
       subst h2
       rfl)

/-- C10: if any reading of a /data payload lacks all three timestamp
fields, the request (once past the mapping and configuration checks) is
answered 500 rather than 200; and for a Style A payload the records
normalized from earlier readings are already on the queue when the
failure hits, so the request's effect on the queue is not atomic on
error — shown concretely by a two-reading payload whose first record is
enqueued before the second raises. -/
theorem missing_timestamp_gives_500_after_partial_enqueue :
    (∀ (st : ServerState) (fs rfs : List (String × JValue)) (payload : List JValue),
      dataChecksPass st (.obj fs) = true →
      pyGetD fs "payload" (.arr []) = .arr payload →
      JValue.obj rfs ∈ payload →
      hasKey rfs "timestamp" = false →
      hasKey rfs "time" = false →
      hasKey rfs "ts" = false →
      ((receive_data st (.obj fs)).2.2).status = 500) ∧
    receive_data exSt (.obj [("deviceId", .str "dev"),
        ("payload", .arr [.obj [("time", .num 5),
            ("accelerometer", .obj [("x", .num 1), ("y", .num 2), ("z", .num 3)])],
          .obj []])]) =
      (c10AfterSt, [.ensureTable 1, .enqueued], .serverError "No timestamp") := by
  constructor
  · intro st fs rfs payload hPass hPayload hMem h1 h2 h3
    have hBad : ∃ r ∈ payload, ∃ e, extract_ts r = .error e :=
      ⟨.obj rfs, hMem, "No timestamp", extract_ts_no_fields h1 h2 h3⟩
    rcases dataChecksPass_front_ok hPass with ⟨f, hf⟩
    rw [receive_data_ok_eq hf]
    have hpv : f.payloadVal = .arr payload :=
      (receive_data_front_ok_payloadVal hf).trans hPayload
    simp only [receive_data_process, hpv]
    by_cases hB : styleBDetect payload = true
    · rw [if_pos hB]
      rcases styleBGroupsAux_err [] payload hBad with ⟨e2, hg⟩
      have hg2 : styleBGroups payload = .error e2 := hg
      rw [hg2]
      rfl
    · rw [if_neg hB]
      cases hoe : (runStyleA (tableName f.subject_id) f.subject_id f.placement
          f.activity payload (lookupAssoc st.last_ts f.subject_id) st.queue).err with
      | none =>
        have := runStyleA_err (tableName f.subject_id) f.subject_id f.placement
          f.activity payload (lookupAssoc st.last_ts f.subject_id) st.queue hBad
        rw [hoe] at this
        simp at this
      | some e =>
        rfl
  · norm_num +decide [receive_data, receive_data_front, receive_data_process, exSt,
      exCfg, pyOr, pyGet, pyGetD, lookupAssoc, JValue.truthy, resolveSubject,
      DEVICE_SUBJECT_MAP, hasKey, tableName, insertIfAbsent, styleBDetect, runStyleA,
      normalizeReadingA, extract_ts, tsChain, inferSec, pyLower, vec3_xyz_or_pry,
      channelsAnyTruthy, processRecord, throttleAdmits, SAMPLE_RATE_HZ, put_nowait,
      QUEUE_MAXSIZE, updateLast, updateAssoc, c10Row, c10AfterSt]

/-- C10 witness: the general 500 statement instantiated at the concrete
two-reading payload of the second conjunct. -/
theorem missing_timestamp_gives_500_witness :
    ((receive_data exSt (.obj [("deviceId", .str "dev"),
        ("payload", .arr [.obj [("time", .num 5),
            ("accelerometer", .obj [("x", .num 1), ("y", .num 2), ("z", .num 3)])],
          .obj []])])).2.2).status = 500 :=
  missing_timestamp_gives_500_after_partial_enqueue.1 exSt _ [] _
    (by norm_num +decide [dataChecksPass, receive_data_front, exSt, exCfg, pyOr,
      pyGet, pyGetD, lookupAssoc, JValue.truthy, resolveSubject, DEVICE_SUBJECT_MAP,
      hasKey, pyLower])
    rfl (by simp) rfl rfl rfl

lemma keys_btSetdefaultUpdate (ts : ℚ) (f : Channels → Channels) :
    ∀ bt : List (ℚ × Channels),
      (btSetdefaultUpdate bt ts f).map Prod.fst =
        if ts ∈ bt.map Prod.fst then bt.map Prod.fst else bt.map Prod.fst ++ [ts]
  | [] => by simp [btSetdefaultUpdate]
  | (t, c) :: tl => by
    simp only [btSetdefaultUpdate]
    by_cases h : t = ts
    · subst h
      simp
    · have h' : ¬ ts = t := fun hh => h hh.symm
      have ih := keys_btSetdefaultUpdate ts f tl
      simp only [if_neg h, List.map_cons]
      rw [ih]
      by_cases h2 : ts ∈ tl.map Prod.fst
      · simp [h2, h', List.mem_cons]
      · simp [h2, h', List.mem_cons]

lemma nodup_btSetdefaultUpdate (ts : ℚ) (f : Channels → Channels)
    (bt : List (ℚ × Channels)) (h : (bt.map Prod.fst).Nodup) :
    ((btSetdefaultUpdate bt ts f).map Prod.fst).Nodup := by
  rw [keys_btSetdefaultUpdate]
  split
  · exact h
  · rename_i h2
    simp [List.nodup_append, h, h2]

lemma mem_keys_btSetdefaultUpdate (ts : ℚ) (f : Channels → Channels)
    (bt : List (ℚ × Channels)) (u : ℚ) :
    u ∈ (btSetdefaultUpdate bt ts f).map Prod.fst ↔
      u ∈ bt.map Prod.fst ∨ u = ts := by
  rw [keys_btSetdefaultUpdate]
  split
  · rename_i h2
    constructor
    · exact Or.inl
    · rintro (h | rfl)
      · exact h
      · exact h2
  · simp [List.mem_append]

lemma styleBStep_ok_shape {bt bt2 : List (ℚ × Channels)} {r : JValue}
    (h : styleBStep bt r = .ok bt2) :
    ∃ tr, extract_ts r = .ok tr ∧ ∃ f, bt2 = btSetdefaultUpdate bt tr f := by
  cases r
  all_goals simp only [styleBStep] at h
  any_goals exact Except.noConfusion h
  repeat' split at h
  all_goals try (simp_all; done)
  all_goals injection h with h2
  all_goals subst h2
  all_goals exact ⟨_, ⟨by assumption, ⟨_, rfl⟩⟩⟩

lemma styleBGroupsAux_keys :
    ∀ (payload : List JValue) (bt gs : List (ℚ × Channels)),
      styleBGroupsAux bt payload = .ok gs →
      ((bt.map Prod.fst).Nodup → (gs.map Prod.fst).Nodup) ∧
      (∀ t, t ∈ gs.map Prod.fst ↔
        t ∈ bt.map Prod.fst ∨ ∃ r ∈ payload, extract_ts r = .ok t)
  | [], bt, gs, h => by
    simp only [styleBGroupsAux] at h
    injection h with h2
    subst h2
    exact ⟨id, by simp⟩
  | r :: rest, bt, gs, h => by
    simp only [styleBGroupsAux] at h
    cases hs : styleBStep bt r with
    | error e =>
      rw [hs] at h
      exact absurd h (by exact fun hh => Except.noConfusion hh)
    | ok bt2 =>
      rw [hs] at h
      obtain ⟨tr, htr, f, hbt2⟩ := styleBStep_ok_shape hs
      obtain ⟨hnd, hmem⟩ := styleBGroupsAux_keys rest bt2 gs h
      subst hbt2
      constructor
      · intro hbtnd
        exact hnd (nodup_btSetdefaultUpdate _ _ _ hbtnd)
      · intro t
        rw [hmem t, mem_keys_btSetdefaultUpdate]
        constructor
        · rintro ((hin | rfl) | hrest)
          · exact Or.inl hin
          · exact Or.inr ⟨r, List.mem_cons_self r rest, htr⟩
          · rcases hrest with ⟨r0, hr0, h0⟩
            exact Or.inr ⟨r0, List.mem_cons_of_mem r hr0, h0⟩
        · rintro (hin | ⟨r0, hr0, h0⟩)
          · exact Or.inl (Or.inl hin)
          · rcases List.mem_cons.mp hr0 with rfl | hm
            · rw [htr] at h0
              injection h0 with h00
              exact Or.inl (Or.inr h00.symm)
            · exact Or.inr ⟨r0, hm, h0⟩

lemma normalizeReadingA_some_truthy {r : JValue} {rc : ℚ × Channels}
    (h : normalizeReadingA r = .ok (some rc)) : channelsAnyTruthy rc.2 = true := by
  cases r
  all_goals simp only [normalizeReadingA] at h
  any_goals exact Except.noConfusion h
  repeat' split at h
  all_goals first
    | (simp_all; done)
    | (injection h with h2
       injection h2 with h3
       subst h3
       assumption)

lemma styleARecords_truthy :
    ∀ (payload : List JValue) (rs : List (ℚ × Channels)),
      styleARecords payload = .ok rs → ∀ p ∈ rs, channelsAnyTruthy p.2 = true
  | [], rs, h => by
    simp only [styleARecords] at h
    injection h with h2
    subst h2
    simp
  | r :: rest, rs, h => by
    simp only [styleARecords] at h
    cases hn : normalizeReadingA r with
    | error e =>
      rw [hn] at h
      exact absurd h (by exact fun hh => Except.noConfusion hh)
    | ok o =>
      rw [hn] at h
      cases o with
      | none => exact styleARecords_truthy rest rs h
      | some rc =>
        cases hrest : styleARecords rest with
        | error e =>
          rw [hrest] at h
          exact absurd h (by exact fun hh => Except.noConfusion hh)
        | ok rs2 =>
          rw [hrest] at h
          injection h with h2
          subst h2
          intro p hp
          rcases List.mem_cons.mp hp with rfl | hm
          · exact normalizeReadingA_some_truthy hn
          · exact styleARecords_truthy rest rs2 hrest p hm

lemma styleBDetect_iff (payload : List JValue) :
    styleBDetect payload = true ↔
      ∃ fs rest, payload = JValue.obj fs :: rest ∧ hasKey fs "name" = true := by
  cases payload with
  | nil => simp [styleBDetect]
  | cons v rest => cases v <;> simp [styleBDetect]

/-- C5 counterexample: a valid Style A payload (its first element has no
"name" key) whose two non-null readings share the derived timestamp 5 s
normalizes to two records over a single distinct derived timestamp,
refuting "exactly one record per distinct derived timestamp". -/
theorem styleA_two_records_share_timestamp :
    styleBDetect c5APayload = false ∧
    styleARecords c5APayload = .ok [c5Rec1, c5Rec2] ∧
    [c5Rec1, c5Rec2].map Prod.fst = [5, 5] := by
  refine ⟨by norm_num +decide [styleBDetect, c5APayload, hasKey, lookupAssoc], ?_,
    by norm_num +decide [c5Rec1, c5Rec2]⟩
  norm_num +decide [styleARecords, c5APayload, c5Rec1, c5Rec2, normalizeReadingA,
    extract_ts, tsChain, inferSec, pyOr, pyGet, pyGetD, lookupAssoc, JValue.truthy,
    vec3_xyz_or_pry, hasKey, channelsAnyTruthy]

/-- C5 amended: the payload-style detection rule is exactly as claimed;
for Style B the normalizer produces at most one group per derived
timestamp — the group keys are the distinct derived timestamps of the
payload's readings, without duplicates — and exactly the groups with at
least one truthy merged channel survive as records; for Style A it
produces one record per reading with at least one truthy channel, so two
readings sharing a derived timestamp yield two records; vector channels
are populated from whichever of the three coordinate conventions is
present, in the declared precedence. -/
theorem normalizer_amended :
    (∀ payload : List JValue, styleBDetect payload = true ↔
        ∃ fs rest, payload = JValue.obj fs :: rest ∧ hasKey fs "name" = true) ∧
    (∀ (payload : List JValue) (gs : List (ℚ × Channels)),
      styleBGroups payload = .ok gs →
        (gs.map Prod.fst).Nodup ∧
        (∀ t, t ∈ gs.map Prod.fst ↔ ∃ r ∈ payload, extract_ts r = .ok t)) ∧
    (∀ (payload : List JValue) (gs rs : List (ℚ × Channels)),
      styleBGroups payload = .ok gs → styleBRecords payload = .ok rs →
        rs = gs.filter (fun p => channelsAnyTruthy p.2) ∧
        (rs.map Prod.fst).Nodup ∧
        (∀ p ∈ rs, channelsAnyTruthy p.2 = true)) ∧
    (∀ (payload : List JValue) (rs : List (ℚ × Channels)),
      styleARecords payload = .ok rs → ∀ p ∈ rs, channelsAnyTruthy p.2 = true) ∧
    (∀ fs : List (String × JValue),
      ((hasKey fs "x" && hasKey fs "y" && hasKey fs "z") = true →
        vec3_xyz_or_pry (.obj fs) = .arr [pyGet fs "x", pyGet fs "y", pyGet fs "z"]) ∧
      ((hasKey fs "x" && hasKey fs "y" && hasKey fs "z") = false →
        (hasKey fs "pitch" && hasKey fs "roll" && hasKey fs "yaw") = true →
        vec3_xyz_or_pry (.obj fs) =
          .arr [pyGet fs "pitch", pyGet fs "roll", pyGet fs "yaw"]) ∧
      ((hasKey fs "x" && hasKey fs "y" && hasKey fs "z") = false →
        (hasKey fs "pitch" && hasKey fs "roll" && hasKey fs "yaw") = false →
        (hasKey fs "alpha" && hasKey fs "beta" && hasKey fs "gamma") = true →
        vec3_xyz_or_pry (.obj fs) =
          .arr [pyGet fs "alpha", pyGet fs "beta", pyGet fs "gamma"])) := by
  refine ⟨styleBDetect_iff, ?_, ?_, styleARecords_truthy, ?_⟩
  · intro payload gs hg
    obtain ⟨hnd, hmem⟩ := styleBGroupsAux_keys payload [] gs hg
    refine ⟨hnd (by simp), ?_⟩
    intro t
    rw [hmem t]
    simp
  · intro payload gs rs hg hr
    have hrs : rs = gs.filter (fun p => channelsAnyTruthy p.2) := by
      simp only [styleBRecords] at hr
      rw [hg] at hr
      injection hr with h2
      exact h2.symm
    obtain ⟨hnd, hmem⟩ := styleBGroupsAux_keys payload [] gs hg
    subst hrs
    refine ⟨rfl, ?_, ?_⟩
    · have hsub : ((gs.filter (fun p => channelsAnyTruthy p.2)).map Prod.fst).Sublist
          (gs.map Prod.fst) :=
        (List.filter_sublist gs).map Prod.fst
      exact List.Nodup.sublist hsub (hnd (by simp))
    · intro p hp
      exact (List.mem_filter.mp hp).2
  · intro fs
    refine ⟨?_, ?_, ?_⟩
    · intro h1
      simp [vec3_xyz_or_pry, h1]
    · intro h1 h2
      simp [vec3_xyz_or_pry, h1, h2]
    · intro h1 h2 h3
      simp [vec3_xyz_or_pry, h1, h2, h3]

/-- C5 amended witness: the Style B group list of a one-sample payload
has duplicate-free timestamps, a record kept by the Style A normalizer
has a truthy channel, and an {x,y,z} dict extracts to the ordered
3-vector. -/
theorem normalizer_amended_witness :
    ([c5Rec1].map Prod.fst).Nodup ∧
    channelsAnyTruthy c5Rec1.2 = true ∧
    vec3_xyz_or_pry (.obj [("x", .num 1), ("y", .num 2), ("z", .num 3)]) =
      .arr [.num 1, .num 2, .num 3] := by
  refine ⟨?_, ?_, ?_⟩
  · exact (normalizer_amended.2.1 c5BPayload [c5Rec1]
      (by norm_num +decide [styleBGroups, styleBGroupsAux, styleBStep, c5BPayload,
        c5Rec1, btSetdefaultUpdate, setChannel, channelNames, extract_ts, tsChain,
        inferSec, pyOr, pyGet, pyGetD, lookupAssoc, JValue.truthy, pyLower,
        vec3_xyz_or_pry, hasKey, emptyChannels])).1
  · exact normalizer_amended.2.2.2.1 c5APayload [c5Rec1, c5Rec2]
      (by norm_num +decide [styleARecords, c5APayload, c5Rec1, c5Rec2,
        normalizeReadingA, extract_ts, tsChain, inferSec, pyOr, pyGet, pyGetD,
        lookupAssoc, JValue.truthy, vec3_xyz_or_pry, hasKey, channelsAnyTruthy])
      c5Rec1 (List.mem_cons_self c5Rec1 [c5Rec2])
  · exact (normalizer_amended.2.2.2.2 [("x", .num 1), ("y", .num 2), ("z", .num 3)]).1
      (by decide)

end SensorPipeline
